import Mathlib

/-!
# Verification of the store-rating repository's core logic

Shallow embedding of the rating-aggregation, moderation, slug-generation and
review-lifecycle code of the repository (Sequelize models `Store.js`,
`Rating.js`, and the Express controller `reviewController.js`), together with
theorems settling the frozen claims about it.

Conventions:
* JavaScript strings are Lean `String`s, processed as `List Char`.
* JavaScript numbers holding exact small integers (ratings, counts) are `Nat`;
  decimal results of `toFixed` are modelled exactly over `ℚ` (round-half-up at
  the given number of decimal digits, which is what `Number.prototype.toFixed`
  computes on the binary-exactly-representable values arising here).
* `null`/`undefined` become `Option`; a thrown validation error becomes
  `Except String`.
* Database rows are Lean structures; a store's rating set is a `List`.
-/

namespace StoreRating

/-! ## Slug generation (`Store.js`, `Store.generateSlug`)

```js
const baseSlug = name
  .toLowerCase()
  .replace(/[^a-z0-9 -]/g, '')
  .replace(/\s+/g, '-')
  .replace(/[-]+/g, '-')
  .trim();
let slug = baseSlug;
let counter = 1;
while (await this.findOne({ where: { slug } })) {
  slug = `${baseSlug}-${counter}`;
  counter++;
}
return slug;
```
-/

/-- The character class of the JavaScript regex `\s` restricted to ASCII
(space, tab, line feed, vertical tab, form feed, carriage return).  After the
`[^a-z0-9 -]` strip only the plain space can still occur, so the ASCII
restriction is exact on every string this pipeline feeds it. -/
def jsWhitespace (c : Char) : Bool :=
  c = ' ' || c = '\t' || c = '\n' || c = '\x0b' || c = '\x0c' || c = '\r'

/-- The character class `[a-z0-9 -]` kept by the strip step. -/
def slugKeep (c : Char) : Bool :=
  ('a' ≤ c && c ≤ 'z') || ('0' ≤ c && c ≤ '9') || c = ' ' || c = '-'

/-- Worker for `.replace(/\s+/g, '-')`: the flag records whether the previous
character belonged to a whitespace run (the run already emitted its single
hyphen). -/
def collapseWsAux : Bool → List Char → List Char
  | _, [] => []
  | inRun, c :: cs =>
    if jsWhitespace c then
      if inRun then collapseWsAux true cs else '-' :: collapseWsAux true cs
    else c :: collapseWsAux false cs

/-- `.replace(/\s+/g, '-')`: each maximal run of whitespace becomes one
hyphen. -/
def collapseWs (l : List Char) : List Char :=
  collapseWsAux false l

/-- Worker for `.replace(/[-]+/g, '-')`, same run-flag scheme. -/
def collapseHyphensAux : Bool → List Char → List Char
  | _, [] => []
  | inRun, c :: cs =>
    if c = '-' then
      if inRun then collapseHyphensAux true cs else '-' :: collapseHyphensAux true cs
    else c :: collapseHyphensAux false cs

/-- `.replace(/[-]+/g, '-')`: each maximal run of hyphens becomes one hyphen. -/
def collapseHyphens (l : List Char) : List Char :=
  collapseHyphensAux false l

/-- JavaScript `String.prototype.trim`: remove leading and trailing
whitespace (and only whitespace — hyphens are not touched). -/
def jsTrim (l : List Char) : List Char :=
  ((l.dropWhile jsWhitespace).reverse.dropWhile jsWhitespace).reverse

/-- The `baseSlug` computation of `Store.generateSlug`: lower-case, strip
characters outside `[a-z0-9 -]`, collapse whitespace runs to single hyphens,
collapse hyphen runs, then `trim()`.  `toLowerCase` is modelled per character
by `Char.toLower`; a non-ASCII character whose JavaScript lowercase form
differs is stripped by the following `[^a-z0-9 -]` filter either way. -/
def generateSlugBase (name : String) : String :=
  ⟨jsTrim (collapseHyphens (collapseWs ((name.data.map Char.toLower).filter slugKeep)))⟩

/-- The candidate sequence probed by the collision loop: `base`, `base-1`,
`base-2`, …. -/
def slugCandidate (base : String) (i : Nat) : String :=
  if i = 0 then base else base ++ "-" ++ toString i

/-- The `while (await this.findOne({ where: { slug } }))` probe loop over an
existence oracle `ex` (one persistence lookup per probe).  The JavaScript
loop is unbounded; `fuel` bounds the embedding, and every theorem below
supplies enough fuel to reach the first free candidate. -/
def findFreeSlug (ex : String → Bool) (base : String) : Nat → Nat → String
  | 0, i => slugCandidate base i
  | fuel + 1, i =>
    if ex (slugCandidate base i) then findFreeSlug ex base fuel (i + 1)
    else slugCandidate base i

/-- `Store.generateSlug` over an existence oracle. -/
def generateSlug (ex : String → Bool) (name : String) (fuel : Nat) : String :=
  findFreeSlug ex (generateSlugBase name) fuel 0

example : generateSlugBase "Joe's Cafe" = "joes-cafe" := by decide
example : generateSlugBase " joe" = "-joe" := by decide
example : generateSlug (fun s => s == "joes-cafe") "Joe's Cafe" 2 = "joes-cafe-1" := by decide

/-! ## The review (rating) data model (`Rating.js`) -/

/-- The `flag_reason` enum of `Rating.js`. -/
inductive FlagReason
  | spam
  | inappropriate
  | fake
  | offensive
  | other
deriving DecidableEq, Repr

/-- The `reply` JSONB structure.  The Sequelize instance method
`Rating.prototype.addReply` writes `{text, date, author_id}`; the Express
controller `addReply` writes only `{text, date}`, so `author_id` is an
`Option`. -/
structure ReplyDoc where
  text : String
  date : Nat
  author_id : Option Nat := none
deriving DecidableEq, Repr

/-- A row of the `ratings` table.  Field defaults mirror the Sequelize
`defaultValue`s (`helpful_votes: 0`, `is_flagged: false`,
`is_approved: true`, `images: []`). -/
structure RatingRow where
  user_id : Nat
  store_id : Nat
  rating : Nat
  title : Option String := none
  comment : Option String := none
  images : List String := []
  helpful_votes : Nat := 0
  reply : Option ReplyDoc := none
  is_verified_purchase : Bool := false
  is_flagged : Bool := false
  flag_reason : Option FlagReason := none
  is_approved : Bool := true
deriving DecidableEq, Repr

/-- The model-level validators of `Rating.js` that run on every
`save()` — `min`/`max`/`isInt` on `rating`, `isValidImages`,
`isValidReply`, and `isValidFlagReason` (`this.is_flagged && !value` →
throw).  Returns the row unchanged when every validator passes; a failed
save persists nothing. -/
def saveRating (r : RatingRow) : Except String RatingRow :=
  if r.rating < 1 then .error "Rating must be between 1 and 5"
  else if 5 < r.rating then .error "Rating must be between 1 and 5"
  else if r.images.length > 5 then .error "Maximum 5 images allowed per review"
  else if r.images.any (fun i => !(i.startsWith "http")) then
    .error "All images must be valid URLs"
  else
    match r.reply with
    | some rep =>
      if rep.text = "" then .error "Reply must have a text field"
      else if rep.text.length > 1000 then .error "Reply text cannot exceed 1000 characters"
      else if r.is_flagged = true ∧ r.flag_reason = none then
        .error "Flag reason is required when review is flagged"
      else .ok r
    | none =>
      if r.is_flagged = true ∧ r.flag_reason = none then
        .error "Flag reason is required when review is flagged"
      else .ok r

/-- `Rating.prototype.flag`: set `is_flagged`, `flag_reason`, clear
`is_approved`, then `save()` (which runs `isValidFlagReason`).  On a
validation error the stored row is unchanged. -/
def flagRating (r : RatingRow) (reason : Option FlagReason) : Except String RatingRow :=
  saveRating { r with is_flagged := true, flag_reason := reason, is_approved := false }

/-- `Rating.prototype.addReply`: overwrite `this.reply` with
`{text, date: new Date(), author_id}`, then `save()`. -/
def ratingAddReply (r : RatingRow) (replyText : String) (authorId : Nat) (now : Nat) :
    Except String RatingRow :=
  saveRating { r with reply := some { text := replyText, date := now, author_id := some authorId } }

/-- Sequelize `Rating.create` field application: a field given in the create
payload is used, otherwise the column's `defaultValue` — for `is_approved`
that default is the literal `true`, with no configuration switch. -/
def buildRating (userId storeId rating : Nat) (title comment : Option String)
    (images : List String) (isApprovedField : Option Bool) : RatingRow :=
  { user_id := userId, store_id := storeId, rating := rating, title := title,
    comment := comment, images := images, is_approved := isApprovedField.getD true }

/-! ## Store aggregate recomputation

Two recompute implementations exist in the repository:
* `Store.prototype.updateRatingStats` (Sequelize model) — reads
  `this.getRatings()`, the unfiltered `hasMany` association, and writes
  `(sum / ratings.length).toFixed(2)`;
* `updateStoreRating` (Express `reviewController.js`) — reads
  `Review.find({ store: storeId })`, also unfiltered, and writes
  `parseFloat(averageRating.toFixed(1))`, with the whole body inside
  `try { … } catch (error) { console.error(…) }`.
-/

/-- `Number.prototype.toFixed(d)` modelled exactly over `ℚ`: round half up
at `d` decimal digits.  (On the binary-exactly-representable means arising
from small integer sums this agrees with the JavaScript double result.) -/
def toFixedQ (d : Nat) (q : ℚ) : ℚ :=
  ((⌊q * (10 ^ d : ℚ) + 1 / 2⌋ : ℤ) : ℚ) / (10 ^ d : ℚ)

/-- `reviews.reduce((sum, review) => sum + review.rating, 0)`. -/
def sumRatings (rs : List RatingRow) : Nat :=
  (rs.map (·.rating)).sum

/-- The store's two derived columns. -/
structure StoreAgg where
  average_rating : ℚ
  total_reviews : Nat
deriving DecidableEq, Repr

/-- `Store.prototype.updateRatingStats`, as a function of the list returned
by `this.getRatings()` (all ratings of the store — the association is not
filtered by `is_approved`). -/
def updateRatingStats (ratings : List RatingRow) : StoreAgg :=
  if ratings.length > 0 then
    { average_rating := toFixedQ 2 ((sumRatings ratings : ℚ) / (ratings.length : ℚ)),
      total_reviews := ratings.length }
  else
    { average_rating := 0, total_reviews := 0 }

/-- The pure numeric core of the controller's `updateStoreRating`, as a
function of the list returned by `Review.find({ store: storeId })` (again
unfiltered): one-decimal rounding via `toFixed(1)`. -/
def controllerStoreRating (reviews : List RatingRow) : StoreAgg :=
  if reviews.length = 0 then
    { average_rating := 0, total_reviews := 0 }
  else
    { average_rating := toFixedQ 1 ((sumRatings reviews : ℚ) / (reviews.length : ℚ)),
      total_reviews := reviews.length }

/-- `Rating.getAverageRating` (`Rating.js`): SQL `AVG`/`COUNT` over the
rows with `store_id = storeId` **and** `is_approved = true`;
`parseFloat(null) || 0` makes the empty average `0`. -/
def getAverageRating (rs : List RatingRow) (storeId : Nat) : ℚ × Nat :=
  let sel := rs.filter (fun r => r.store_id = storeId && r.is_approved)
  (if sel.length = 0 then 0 else (sumRatings sel : ℚ) / (sel.length : ℚ), sel.length)

/-- Modelled from the spec's words (I1/I2), for comparison with the code's
recompute: the aggregate over the **approved** reviews of the store, mean
rounded half-up to two decimals, `{0.00, 0}` when none are approved. -/
def specApprovedAggregate (rs : List RatingRow) (storeId : Nat) : StoreAgg :=
  let sel := rs.filter (fun r => r.store_id = storeId && r.is_approved)
  if sel.length = 0 then { average_rating := 0, total_reviews := 0 }
  else
    { average_rating := toFixedQ 2 ((sumRatings sel : ℚ) / (sel.length : ℚ)),
      total_reviews := sel.length }

example : toFixedQ 1 ((13 : ℚ) / 3) = 43 / 10 := by norm_num [toFixedQ]
example : toFixedQ 2 ((13 : ℚ) / 3) = 433 / 100 := by norm_num [toFixedQ]

/-! ## Controller operations (`reviewController.js`) -/

/-- The `role` enum of `User.js`. -/
inductive Role
  | customer
  | store_owner
  | admin
deriving DecidableEq, Repr

/-- The typed outcomes a controller operation reports (HTTP status plus
message in the source). -/
inductive ReviewErr
  | notFound
  | forbidden (msg : String)
  | badRequest (msg : String)
  | constraintViolation
deriving DecidableEq, Repr

/-- JavaScript `x || y` on a possibly-absent number: `undefined` and `0` are
falsy, so both fall back to the old value. -/
def jsOrNat (v : Option Nat) (old : Nat) : Nat :=
  match v with
  | none => old
  | some n => if n = 0 then old else n

/-- JavaScript `x || y` on a possibly-absent string: `undefined` and `''`
are falsy. -/
def jsOrStr (v : Option String) (old : Option String) : Option String :=
  match v with
  | none => old
  | some s => if s = "" then old else some s

/-- JavaScript `x || y` on a possibly-absent array: every array — including
`[]` — is truthy, so any provided array is taken. -/
def jsOrArr (v : Option (List String)) (old : List String) : List String :=
  v.getD old

/-- The body fields of a `PUT /api/reviews/:id` request;
`none` means the field was absent from `req.body`. -/
structure EditReq where
  rating : Option Nat := none
  title : Option String := none
  comment : Option String := none
  images : Option (List String) := none
deriving DecidableEq, Repr

/-- The field-application step of the controller's `updateReview`:
```js
review.rating  = rating  || review.rating;
review.title   = title   || review.title;
review.comment = comment || review.comment;
review.images  = images  || review.images;
```
-/
def applyEdit (req : EditReq) (r : RatingRow) : RatingRow :=
  { r with
    rating := jsOrNat req.rating r.rating,
    title := jsOrStr req.title r.title,
    comment := jsOrStr req.comment r.comment,
    images := jsOrArr req.images r.images }

/-- The controller's `addReply`: 403 unless the actor is the review's store
owner or an admin, 400 when `text` is falsy (absent or empty), otherwise
`review.reply = { text, date: new Date() }` — overwriting any previous
reply, recording no `author_id`, and applying no length check. -/
def controllerAddReply (storeOwnerId : Nat) (actorId : Nat) (actorRole : Role)
    (text : Option String) (now : Nat) (r : RatingRow) : Except ReviewErr RatingRow :=
  if storeOwnerId ≠ actorId ∧ actorRole ≠ Role.admin then
    .error (.forbidden "Access denied. Only store owners can reply to reviews.")
  else
    match text with
    | none => .error (.badRequest "Reply text is required")
    | some t =>
      if t = "" then .error (.badRequest "Reply text is required")
      else .ok { r with reply := some { text := t, date := now, author_id := none } }

/-- `findOne({ user, store })` — the prior lookup of the controller's
`addReview`. -/
def pairExists (db : List RatingRow) (userId storeId : Nat) : Bool :=
  db.any (fun q => q.user_id = userId && q.store_id = storeId)

/-- The storage-level insert guarded by the unique index
`unique_user_store_rating` on `(user_id, store_id)` (`Rating.js`): atomic —
it either appends the row or rejects the duplicate pair, never both. -/
def insertRating (db : List RatingRow) (r : RatingRow) : Except ReviewErr (List RatingRow) :=
  if pairExists db r.user_id r.store_id then .error .constraintViolation
  else .ok (r :: db)

/-- The controller's `addReview` run in isolation (no interleaving): prior
lookup, then create.  Returns the resulting table and the reported outcome;
on any error the table is returned unchanged (nothing persisted). -/
def addReview (db : List RatingRow) (userId storeId rating : Nat)
    (title comment : Option String) (images : List String) :
    List RatingRow × Except ReviewErr RatingRow :=
  if pairExists db userId storeId then
    (db, .error (.badRequest "You have already reviewed this store"))
  else
    let r := buildRating userId storeId rating title comment images none
    match insertRating db r with
    | .ok db' => (db', .ok r)
    | .error e => (db, .error e)

/-! ## Concurrent submits racing on one `(user_id, store_id)` pair

Each of `N` clients runs the controller's `addReview` for the same pair:
first the `findOne` lookup, later the constraint-guarded insert.  The two
steps of different clients may interleave arbitrarily; each single step is
atomic at the storage layer.  `rowExists` abstracts the table restricted to
the contested pair. -/

/-- One atomic step of some client `i`. -/
inductive SubmitEv (N : Nat)
  | lookup (i : Fin N)
  | insert (i : Fin N)

/-- What a client's `addReview` ends with. -/
inductive SubmitRes
  | created
  | duplicate
  | violation
deriving DecidableEq, Repr

/-- Interleaving state: the contested row, each client's remembered lookup
result, each client's reported outcome. -/
structure SubmitState (N : Nat) where
  rowExists : Bool
  found : Fin N → Option Bool
  res : Fin N → Option SubmitRes

/-- No row for the pair yet; no client has run any step. -/
def submitInit (N : Nat) : SubmitState N :=
  { rowExists := false, found := fun _ => none, res := fun _ => none }

/-- Execute one step.  A client's `lookup` reads the current table; its
`insert` aborts with the duplicate message when the remembered lookup found
a row (`addReview`'s early return), otherwise attempts the
constraint-guarded insert.  Steps of an already-finished client (or an
insert before its lookup) are no-ops, matching the one-shot request flow. -/
def submitStep {N : Nat} (s : SubmitState N) : SubmitEv N → SubmitState N
  | .lookup i =>
    if (s.found i).isSome then s
    else { s with found := Function.update s.found i (some s.rowExists) }
  | .insert i =>
    if (s.res i).isSome then s
    else
      match s.found i with
      | none => s
      | some true => { s with res := Function.update s.res i (some .duplicate) }
      | some false =>
        if s.rowExists then
          { s with res := Function.update s.res i (some .violation) }
        else
          { rowExists := true, found := s.found,
            res := Function.update s.res i (some .created) }

/-- Run a whole interleaving from the empty table. -/
def runSubmits (N : Nat) (evs : List (SubmitEv N)) : SubmitState N :=
  evs.foldl submitStep (submitInit N)

/-- How many of the `N` racing submits were told their review was created. -/
def createdCount {N : Nat} (s : SubmitState N) : Nat :=
  ∑ i : Fin N, if s.res i = some SubmitRes.created then 1 else 0

/-! ## Review creation and its `afterCreate` hook -/

/-- A store's ratings table together with its two derived columns. -/
structure StoreState where
  ratings : List RatingRow
  agg : StoreAgg
deriving Repr

/-- `Rating.create` followed by the `afterCreate` hook of `Rating.js`, which
immediately calls `store.updateRatingStats()` on the owning store. -/
def createRatingWithHook (s : StoreState) (r : RatingRow) : StoreState :=
  { ratings := r :: s.ratings, agg := updateRatingStats (r :: s.ratings) }

/-! ## The controller recompute as an effectful step (`updateStoreRating`) -/

/-- Which persistence call inside `updateStoreRating`'s `try` block fails,
if any. -/
inductive RecomputeOutcome
  | fetchFail
  | writeFail
  | success
deriving DecidableEq, Repr

/-- The controller's `updateStoreRating` as a state transformer on the
store's derived fields, returning what the caller gets to see.  The whole
body sits in `try { … } catch (error) { console.error(…) }`, so a throw from
either the `Review.find` or the single `findByIdAndUpdate` is logged and
swallowed — the function returns normally and the derived fields keep their
last-known values; only on success are both fields written together. -/
def updateStoreRating (reviews : List RatingRow) (outcome : RecomputeOutcome)
    (s : StoreAgg) : StoreAgg × Option String :=
  match outcome with
  | .fetchFail => (s, none)
  | .writeFail => (s, none)
  | .success => (controllerStoreRating reviews, none)

/-! ## Slug lemmas (claims C4 and C5) -/

/-- The character class `[a-z0-9-]` of invariant I5. -/
def slugChar (c : Char) : Bool :=
  ('a' ≤ c && c ≤ 'z') || ('0' ≤ c && c ≤ '9') || c = '-'

lemma collapseWsAux_chars {l : List Char} (hl : ∀ c ∈ l, slugKeep c = true) :
    ∀ b, ∀ c ∈ collapseWsAux b l, slugChar c = true := by
  induction l with
  | nil => intro b c hc; simp [collapseWsAux] at hc
  | cons a as ih =>
    intro b c hc
    have ha := hl a (List.mem_cons_self a as)
    have has : ∀ c ∈ as, slugKeep c = true := fun c hc => hl c (List.mem_cons_of_mem a hc)
    unfold collapseWsAux at hc
    by_cases hw : jsWhitespace a = true
    · rw [if_pos hw] at hc
      cases b with
      | true => exact ih has true c hc
      | false =>
        rw [if_neg (by simp)] at hc
        rcases List.mem_cons.mp hc with hc | hc
        · subst hc; decide
        · exact ih has true c hc
    · rw [if_neg hw] at hc
      rcases List.mem_cons.mp hc with hc | hc
      · subst hc
        simp only [slugKeep, Bool.or_eq_true, Bool.and_eq_true, decide_eq_true_eq] at ha
        simp only [slugChar, Bool.or_eq_true, Bool.and_eq_true, decide_eq_true_eq]
        rcases ha with ((h1 | h2) | h3) | h4
        · exact Or.inl (Or.inl h1)
        · exact Or.inl (Or.inr h2)
        · exfalso; rw [h3] at hw; exact hw (by decide)
        · exact Or.inr h4
      · exact ih has false c hc

lemma collapseHyphensAux_chars {l : List Char} (hl : ∀ c ∈ l, slugChar c = true) :
    ∀ b, ∀ c ∈ collapseHyphensAux b l, slugChar c = true := by
  induction l with
  | nil => intro b c hc; simp [collapseHyphensAux] at hc
  | cons a as ih =>
    intro b c hc
    have ha := hl a (List.mem_cons_self a as)
    have has : ∀ c ∈ as, slugChar c = true := fun c hc => hl c (List.mem_cons_of_mem a hc)
    unfold collapseHyphensAux at hc
    by_cases hh : a = '-'
    · rw [if_pos hh] at hc
      cases b with
      | true => exact ih has true c hc
      | false =>
        rw [if_neg (by simp)] at hc
        rcases List.mem_cons.mp hc with hc | hc
        · subst hc; decide
        · exact ih has true c hc
    · rw [if_neg hh] at hc
      rcases List.mem_cons.mp hc with hc | hc
      · subst hc; exact ha
      · exact ih has false c hc

lemma jsTrim_subset {l : List Char} {c : Char} (hc : c ∈ jsTrim l) : c ∈ l := by
  unfold jsTrim at hc
  rw [List.mem_reverse] at hc
  have h1 : c ∈ (l.dropWhile jsWhitespace).reverse :=
    List.Sublist.mem hc (List.dropWhile_sublist _)
  rw [List.mem_reverse] at h1
  exact List.Sublist.mem h1 (List.dropWhile_sublist _)

end StoreRating

namespace StoreRating

/-! ## The claims -/

/-- C4 counterexample: the final `.trim()` of `Store.generateSlug` removes
only **whitespace**, but at that point of the pipeline every whitespace run
has already become a hyphen, so an edge hyphen survives: the name `" joe"`
yields the slug `"-joe"`, which begins with a hyphen — contradicting the
claim that the returned slug never begins or ends with a hyphen. -/
theorem claim4_slug_leading_hyphen :
    generateSlugBase " joe" = "-joe" ∧ ("-joe").data.head? = some '-' := by
  constructor
  · decide
  · decide

/-- C4 (amended): `generateSlug`'s base normalisation lower-cases the name,
strips characters outside `[a-z0-9 -]`, collapses whitespace runs to single
hyphens and collapses hyphen runs, so every character of the result lies in
`[a-z0-9-]`; but the final `trim()` removes only whitespace — a no-op at
that stage — so the slug may begin or end with a hyphen (and may be empty)
rather than always matching `^[a-z0-9-]+$` without edge hyphens. -/
theorem claim4_slug_charset (name : String) :
    ∀ c ∈ (generateSlugBase name).data, slugChar c = true := by
  intro c hc
  unfold generateSlugBase at hc
  simp only [String.data] at hc
  have h1 := jsTrim_subset hc
  refine collapseHyphensAux_chars ?_ false c h1
  intro d hd
  refine collapseWsAux_chars ?_ false d hd
  intro e he
  exact List.of_mem_filter he

/-- Witness for C4's amended theorem at the concrete name `"Joe's Cafe"`
and its first slug character. -/
theorem claim4_slug_charset_witness :
    'j' ∈ (generateSlugBase "Joe's Cafe").data ∧ slugChar 'j' = true :=
  ⟨by decide, claim4_slug_charset "Joe's Cafe" 'j' (by decide)⟩

lemma findFreeSlug_spec (ex : String → Bool) (base : String) :
    ∀ (d fuel j : Nat), ex (slugCandidate base (j + d)) = false →
      (∀ i, j ≤ i → i < j + d → ex (slugCandidate base i) = true) →
      d ≤ fuel → findFreeSlug ex base fuel j = slugCandidate base (j + d) := by
  intro d
  induction d with
  | zero =>
    intro fuel j hfree _ _
    rw [Nat.add_zero] at hfree
    cases fuel with
    | zero => simp [findFreeSlug]
    | succ f => simp [findFreeSlug, hfree]
  | succ d ih =>
    intro fuel j hfree hbusy hfuel
    have hj : ex (slugCandidate base j) = true :=
      hbusy j (Nat.le_refl j) (Nat.lt_add_of_pos_right (Nat.succ_pos d))
    cases fuel with
    | zero => exact absurd hfuel (by omega)
    | succ f =>
      simp only [findFreeSlug, hj, if_true]
      have h1 : j + 1 + d = j + (d + 1) := by omega
      rw [show j + (d + 1) = j + 1 + d from by omega] at hfree ⊢
      exact ih f (j + 1) hfree
        (fun i h1i h2i => hbusy i (by omega) (by omega)) (by omega)

/-- C5: `Store.generateSlug` probes `base`, `base-1`, `base-2`, … against
the existence oracle in increasing order and returns the first free
candidate; in particular with the base slug free it returns the base
itself (`k = 0`). -/
theorem claim5_first_free_candidate (ex : String → Bool) (name : String) (k fuel : Nat)
    (hfree : ex (slugCandidate (generateSlugBase name) k) = false)
    (hbusy : ∀ i < k, ex (slugCandidate (generateSlugBase name) i) = true)
    (hfuel : k ≤ fuel) :
    generateSlug ex name fuel = slugCandidate (generateSlugBase name) k := by
  unfold generateSlug
  have := findFreeSlug_spec ex (generateSlugBase name) k fuel 0
    (by simpa using hfree) (fun i h1 h2 => hbusy i (by omega)) hfuel
  simpa using this

/-- Witness for C5: submitting `"Joe's Cafe"` while `joes-cafe` already
exists deterministically yields `joes-cafe-1`. -/
theorem claim5_first_free_candidate_witness :
    generateSlug (fun s => s == "joes-cafe") "Joe's Cafe" 2 = "joes-cafe-1" := by
  have h := claim5_first_free_candidate (fun s => s == "joes-cafe") "Joe's Cafe" 1 2
    (by decide) (by decide) (by decide)
  rw [h]
  decide

/-- C7 counterexample: `updateReview` merges fields with `||`, so a field
that **is** provided but falsy is silently ignored — here the owner submits
`title: ""` (clearing the title) and the review keeps its old title, so the
edit does not "apply exactly the fields provided in the request". -/
theorem claim7_provided_empty_title_ignored :
    applyEdit { title := some "" }
        { user_id := 1, store_id := 1, rating := 4, title := some "old" } =
      { user_id := 1, store_id := 1, rating := 4, title := some "old" } := by
  decide

/-- C7 (amended): `updateReview` applies a provided field only when its
value is truthy — a provided `0` rating or empty-string title/comment is
treated like an omitted field and the prior value is retained (a provided
array, even `[]`, is always applied since arrays are truthy) — while every
omitted field, and every field outside the four editable ones, retains its
prior value and is never nulled. -/
theorem claim7_partial_update_semantics (req : EditReq) (r : RatingRow) :
    (req.rating = none → (applyEdit req r).rating = r.rating) ∧
    (req.title = none → (applyEdit req r).title = r.title) ∧
    (req.comment = none → (applyEdit req r).comment = r.comment) ∧
    (req.images = none → (applyEdit req r).images = r.images) ∧
    (∀ n, req.rating = some n → n ≠ 0 → (applyEdit req r).rating = n) ∧
    (∀ s, req.title = some s → s ≠ "" → (applyEdit req r).title = some s) ∧
    (∀ s, req.comment = some s → s ≠ "" → (applyEdit req r).comment = some s) ∧
    (∀ l, req.images = some l → (applyEdit req r).images = l) ∧
    (req.rating = some 0 → (applyEdit req r).rating = r.rating) ∧
    (req.title = some "" → (applyEdit req r).title = r.title) ∧
    (req.comment = some "" → (applyEdit req r).comment = r.comment) ∧
    (applyEdit req r).user_id = r.user_id ∧
    (applyEdit req r).store_id = r.store_id ∧
    (applyEdit req r).helpful_votes = r.helpful_votes ∧
    (applyEdit req r).reply = r.reply ∧
    (applyEdit req r).is_flagged = r.is_flagged ∧
    (applyEdit req r).flag_reason = r.flag_reason ∧
    (applyEdit req r).is_approved = r.is_approved := by
  refine ⟨fun h => ?_, fun h => ?_, fun h => ?_, fun h => ?_,
    fun n h hn => ?_, fun s h hs => ?_, fun s h hs => ?_, fun l h => ?_,
    fun h => ?_, fun h => ?_, fun h => ?_, rfl, rfl, rfl, rfl, rfl, rfl, rfl⟩ <;>
    simp [applyEdit, jsOrNat, jsOrStr, jsOrArr, h]
  · exact fun h0 => absurd h0 hn
  · exact fun h0 => absurd h0 hs
  · exact fun h0 => absurd h0 hs

/-- Witness for C7's amended theorem: a request providing
`rating: 0`, `title: "x"`, `comment: ""`, `images: []`. -/
theorem claim7_partial_update_semantics_witness :
    (applyEdit { rating := some 0, title := some "x", comment := some "", images := some [] }
        { user_id := 1, store_id := 2, rating := 4, title := some "t",
          comment := some "c", images := ["http://a"] }).rating = 4 ∧
    (applyEdit { rating := some 0, title := some "x", comment := some "", images := some [] }
        { user_id := 1, store_id := 2, rating := 4, title := some "t",
          comment := some "c", images := ["http://a"] }).title = some "x" ∧
    (applyEdit { rating := some 0, title := some "x", comment := some "", images := some [] }
        { user_id := 1, store_id := 2, rating := 4, title := some "t",
          comment := some "c", images := ["http://a"] }).comment = some "c" ∧
    (applyEdit { rating := some 0, title := some "x", comment := some "", images := some [] }
        { user_id := 1, store_id := 2, rating := 4, title := some "t",
          comment := some "c", images := ["http://a"] }).images = [] := by
  have h := claim7_partial_update_semantics
    { rating := some 0, title := some "x", comment := some "", images := some [] }
    { user_id := 1, store_id := 2, rating := 4, title := some "t",
      comment := some "c", images := ["http://a"] }
  exact ⟨h.2.2.2.2.2.2.2.2.1 rfl, h.2.2.2.2.2.1 "x" rfl (by decide),
    h.2.2.2.2.2.2.2.2.2.2.1 rfl, h.2.2.2.2.2.2.2.1 [] rfl⟩

/-- C9 counterexample: the whole body of `updateStoreRating` sits in
`try { … } catch (error) { console.error(…) }`, so when the review fetch
throws, the caller receives **no** typed error — contradicting the claim
that every recompute error is surfaced; the derived fields do keep their
last-known values. -/
theorem claim9_recompute_error_swallowed :
    updateStoreRating [] RecomputeOutcome.fetchFail
        { average_rating := 437 / 100, total_reviews := 12 } =
      ({ average_rating := 437 / 100, total_reviews := 12 }, none) :=
  rfl

/-- C9 (amended): errors inside the controller's rating recompute are caught
and logged, never surfaced to the caller (the second component is always
`none`); a failed recompute — whether the fetch or the single atomic
two-field write throws — leaves `average_rating`/`total_reviews` at their
last-known values, stale but not partially written. -/
theorem claim9_recompute_failure_behavior (reviews : List RatingRow)
    (outcome : RecomputeOutcome) (s : StoreAgg) :
    (updateStoreRating reviews outcome s).2 = none ∧
    (outcome ≠ RecomputeOutcome.success → (updateStoreRating reviews outcome s).1 = s) := by
  cases outcome <;> simp [updateStoreRating]

/-- Witness for C9's amended theorem: a fetch failure on a store sitting at
`4.37` over 12 reviews. -/
theorem claim9_recompute_failure_behavior_witness :
    (updateStoreRating [] RecomputeOutcome.fetchFail
        { average_rating := 437 / 100, total_reviews := 12 }).2 = none ∧
    (updateStoreRating [] RecomputeOutcome.fetchFail
        { average_rating := 437 / 100, total_reviews := 12 }).1 =
      { average_rating := 437 / 100, total_reviews := 12 } :=
  ⟨(claim9_recompute_failure_behavior [] RecomputeOutcome.fetchFail
      { average_rating := 437 / 100, total_reviews := 12 }).1,
   (claim9_recompute_failure_behavior [] RecomputeOutcome.fetchFail
      { average_rating := 437 / 100, total_reviews := 12 }).2 (by decide)⟩

/-- C10: a review created without an explicit `is_approved` value gets the
unconditional column default `true` (`Rating.js` has `defaultValue: true`
with no configuration switch and no pending state), and the `afterCreate`
hook immediately recomputes the owning store's statistics over the table
including the fresh review, whose `total_reviews` therefore counts it at
once. -/
theorem claim10_auto_approve_and_recompute (userId storeId rating : Nat)
    (title comment : Option String) (images : List String) (s : StoreState) :
    (buildRating userId storeId rating title comment images none).is_approved = true ∧
    createRatingWithHook s (buildRating userId storeId rating title comment images none) =
      { ratings := buildRating userId storeId rating title comment images none :: s.ratings,
        agg := updateRatingStats
          (buildRating userId storeId rating title comment images none :: s.ratings) } ∧
    (createRatingWithHook s
        (buildRating userId storeId rating title comment images none)).agg.total_reviews =
      s.ratings.length + 1 := by
  refine ⟨rfl, rfl, ?_⟩
  simp [createRatingWithHook, updateRatingStats]

/-- Modelled from the spec's words: "round(sum(rating)/count, 2) using
round-half-up" at precision `1/scale`, phrased by integer arithmetic —
`round(s/n · scale)/scale` with round-half-up being
`⌊(2·scale·s + n) / (2n)⌋` over the naturals. -/
def specRoundHalfUp (s n scale : Nat) : ℚ :=
  (((2 * scale * s + n) / (2 * n) : ℕ) : ℚ) / (scale : ℚ)

lemma toFixedQ_natCast_div (s n d : Nat) (hn : n ≠ 0) :
    toFixedQ d ((s : ℚ) / (n : ℚ)) = specRoundHalfUp s n (10 ^ d) := by
  have hn' : ((n : ℚ)) ≠ 0 := Nat.cast_ne_zero.mpr hn
  have h2n : ((2 * n : ℕ) : ℚ) ≠ 0 := by positivity
  unfold toFixedQ specRoundHalfUp
  have h1 : (s : ℚ) / (n : ℚ) * ((10 : ℚ) ^ d) + 1 / 2 =
      ((2 * 10 ^ d * s + n : ℕ) : ℚ) / ((2 * n : ℕ) : ℚ) := by
    push_cast
    field_simp
    ring
  rw [show ((10 : ℚ) ^ d : ℚ) = ((10 ^ d : ℕ) : ℚ) from by push_cast; ring] at h1 ⊢
  rw [h1, Rat.floor_natCast_div_natCast, ← Int.natCast_div, Int.cast_natCast]

/-- C2 counterexample: on the review multiset `{4, 4, 5}` the controller's
recompute writes `parseFloat((13/3).toFixed(1)) = 4.3` — one-decimal
rounding — while the claim requires `round(13/3, 2) = 4.33`. -/
theorem claim2_controller_rounds_to_one_decimal :
    (controllerStoreRating
        [{ user_id := 1, store_id := 1, rating := 4 },
         { user_id := 2, store_id := 1, rating := 4 },
         { user_id := 3, store_id := 1, rating := 5 }]).average_rating = 43 / 10 ∧
    toFixedQ 2 ((sumRatings
        [{ user_id := 1, store_id := 1, rating := 4 },
         { user_id := 2, store_id := 1, rating := 4 },
         { user_id := 3, store_id := 1, rating := 5 }] : ℚ) / 3) = 433 / 100 ∧
    (43 : ℚ) / 10 ≠ 433 / 100 := by
  refine ⟨?_, ?_, by norm_num⟩
  · norm_num [controllerStoreRating, sumRatings, toFixedQ]
  · norm_num [sumRatings, toFixedQ]

/-- C2 (amended): on the empty fetched set both recompute implementations
write `{0.00, 0}`; on a non-empty set both write `total = count`, and the
average is `round(sum/count, ·)` with round-half-up — at **two** decimals in
the Sequelize `Store.prototype.updateRatingStats` (`toFixed(2)`), but at
only **one** decimal in the controller's `updateStoreRating`
(`toFixed(1)`). -/
theorem claim2_recompute_rounding (l : List RatingRow) :
    (l = [] →
      updateRatingStats l = { average_rating := 0, total_reviews := 0 } ∧
      controllerStoreRating l = { average_rating := 0, total_reviews := 0 }) ∧
    (l ≠ [] →
      updateRatingStats l =
        { average_rating := specRoundHalfUp (sumRatings l) l.length 100,
          total_reviews := l.length } ∧
      controllerStoreRating l =
        { average_rating := specRoundHalfUp (sumRatings l) l.length 10,
          total_reviews := l.length }) := by
  constructor
  · intro h; subst h
    exact ⟨rfl, rfl⟩
  · intro h
    have hl : l.length ≠ 0 := fun h0 => h (List.length_eq_zero.mp h0)
    have hpos : 0 < l.length := Nat.pos_of_ne_zero hl
    constructor
    · rw [updateRatingStats, if_pos hpos,
        toFixedQ_natCast_div (sumRatings l) l.length 2 hl]
      norm_num
    · rw [controllerStoreRating, if_neg hl,
        toFixedQ_natCast_div (sumRatings l) l.length 1 hl]
      norm_num

/-- Witness for C2's amended theorem on the two-review set `{5, 4}`. -/
theorem claim2_recompute_rounding_witness :
    updateRatingStats
        [{ user_id := 1, store_id := 1, rating := 5 },
         { user_id := 2, store_id := 1, rating := 4 }] =
      { average_rating := specRoundHalfUp 9 2 100, total_reviews := 2 } ∧
    controllerStoreRating
        [{ user_id := 1, store_id := 1, rating := 5 },
         { user_id := 2, store_id := 1, rating := 4 }] =
      { average_rating := specRoundHalfUp 9 2 10, total_reviews := 2 } :=
  (claim2_recompute_rounding
      [{ user_id := 1, store_id := 1, rating := 5 },
       { user_id := 2, store_id := 1, rating := 4 }]).2 (by decide)

/-- C1: both recompute implementations read the store's reviews
**unfiltered** (`this.getRatings()` resp. `Review.find({store})`), so after
a committed moderation transition that left a lone review unapproved they
write `total_reviews = 1, average_rating = 4.00` — while invariant I1/I2
(and the repository's own approved-only aggregate `Rating.getAverageRating`)
require `{0.00, 0}`.  The code contradicts its sibling aggregate and the
purpose of its own `is_approved`-sensitive recompute hooks. -/
theorem claim1_recompute_ignores_approval :
    updateRatingStats
        [{ user_id := 1, store_id := 1, rating := 4, is_flagged := true,
           flag_reason := some FlagReason.spam, is_approved := false }] =
      { average_rating := 4, total_reviews := 1 } ∧
    controllerStoreRating
        [{ user_id := 1, store_id := 1, rating := 4, is_flagged := true,
           flag_reason := some FlagReason.spam, is_approved := false }] =
      { average_rating := 4, total_reviews := 1 } ∧
    specApprovedAggregate
        [{ user_id := 1, store_id := 1, rating := 4, is_flagged := true,
           flag_reason := some FlagReason.spam, is_approved := false }] 1 =
      { average_rating := 0, total_reviews := 0 } ∧
    getAverageRating
        [{ user_id := 1, store_id := 1, rating := 4, is_flagged := true,
           flag_reason := some FlagReason.spam, is_approved := false }] 1 = (0, 0) := by
  refine ⟨?_, ?_, ?_, ?_⟩
  · norm_num [updateRatingStats, sumRatings, toFixedQ]
  · norm_num [controllerStoreRating, sumRatings, toFixedQ]
  · norm_num [specApprovedAggregate, List.filter]
  · norm_num [getAverageRating, List.filter]

/-- C3: `flag(id, null)` fails the `isValidFlagReason` validator on save
(persisting nothing), and `flag(id, "spam")` sets
`is_flagged = true, is_approved = false`; but the store's recompute
afterwards still **includes** the flagged review — on `{approved 5-star,
flagged 3-star}` it writes `{4.00, 2}` where the claim (and the
repository's own `Rating.getAverageRating`) require `{5.00, 1}`. -/
theorem claim3_flag_validation_and_aggregate :
    flagRating { user_id := 2, store_id := 1, rating := 3 } none =
      Except.error "Flag reason is required when review is flagged" ∧
    flagRating { user_id := 2, store_id := 1, rating := 3 } (some FlagReason.spam) =
      Except.ok { user_id := 2, store_id := 1, rating := 3, is_flagged := true,
                  flag_reason := some FlagReason.spam, is_approved := false } ∧
    updateRatingStats
        [{ user_id := 1, store_id := 1, rating := 5 },
         { user_id := 2, store_id := 1, rating := 3, is_flagged := true,
           flag_reason := some FlagReason.spam, is_approved := false }] =
      { average_rating := 4, total_reviews := 2 } ∧
    specApprovedAggregate
        [{ user_id := 1, store_id := 1, rating := 5 },
         { user_id := 2, store_id := 1, rating := 3, is_flagged := true,
           flag_reason := some FlagReason.spam, is_approved := false }] 1 =
      { average_rating := 5, total_reviews := 1 } ∧
    getAverageRating
        [{ user_id := 1, store_id := 1, rating := 5 },
         { user_id := 2, store_id := 1, rating := 3, is_flagged := true,
           flag_reason := some FlagReason.spam, is_approved := false }] 1 = (5, 1) := by
  refine ⟨rfl, rfl, ?_, ?_, ?_⟩
  · norm_num [updateRatingStats, sumRatings, toFixedQ]
  · norm_num [specApprovedAggregate, sumRatings, toFixedQ, List.filter]
  · norm_num [getAverageRating, sumRatings, List.filter]

set_option maxRecDepth 100000 in
/-- C8 counterexample: the controller's `addReply` checks only `if (!text)`
— it enforces **no** 1000-character limit and stores `{text, date}` with
**no** `author_id` — so the store owner replying with a 1001-character text
succeeds, where the claim requires an invalid-input failure and an
`author_id` in the stored reply. -/
theorem claim8_long_reply_accepted :
    controllerAddReply 7 7 Role.store_owner
        (some (String.mk (List.replicate 1001 'a'))) 0
        { user_id := 1, store_id := 1, rating := 4 } =
      Except.ok { user_id := 1, store_id := 1, rating := 4,
                  reply := some { text := String.mk (List.replicate 1001 'a'),
                                  date := 0, author_id := none } } ∧
    (String.mk (List.replicate 1001 'a')).length = 1001 := by
  constructor
  · rw [controllerAddReply.eq_def, if_neg (by simp)]
    rfl
  · decide

/-- C8 (amended): the controller's `addReply` fails Forbidden unless the
actor owns the review's store or is an admin, fails with a bad-request
error when `text` is absent or empty, and otherwise overwrites any existing
reply with `{text, date: now}` — recording no `author_id` and enforcing no
length cap on this path.  The Sequelize-level `Rating.prototype.addReply`
(which no controller route calls) is the path that writes
`{text, date, author_id}` and whose save-time validator rejects texts over
1000 characters. -/
theorem claim8_reply_behavior (ownerId actorId : Nat) (role : Role)
    (text : Option String) (now : Nat) (r : RatingRow) :
    (ownerId ≠ actorId → role ≠ Role.admin →
      controllerAddReply ownerId actorId role text now r =
        Except.error (.forbidden "Access denied. Only store owners can reply to reviews.")) ∧
    (¬(ownerId ≠ actorId ∧ role ≠ Role.admin) → text = none →
      controllerAddReply ownerId actorId role text now r =
        Except.error (.badRequest "Reply text is required")) ∧
    (¬(ownerId ≠ actorId ∧ role ≠ Role.admin) → text = some "" →
      controllerAddReply ownerId actorId role text now r =
        Except.error (.badRequest "Reply text is required")) ∧
    (∀ t, ¬(ownerId ≠ actorId ∧ role ≠ Role.admin) → text = some t → t ≠ "" →
      controllerAddReply ownerId actorId role text now r =
        Except.ok { r with reply := some { text := t, date := now, author_id := none } }) ∧
    (∀ t authorId, 1 ≤ r.rating → r.rating ≤ 5 → r.images = [] →
      r.is_flagged = false → t ≠ "" → t.length ≤ 1000 →
      ratingAddReply r t authorId now =
        Except.ok { r with reply := some { text := t, date := now, author_id := some authorId } }) ∧
    (∀ t authorId, 1 ≤ r.rating → r.rating ≤ 5 → r.images = [] →
      t ≠ "" → t.length > 1000 →
      ratingAddReply r t authorId now =
        Except.error "Reply text cannot exceed 1000 characters") := by
  refine ⟨fun h1 h2 => ?_, fun h1 h2 => ?_, fun h1 h2 => ?_,
    fun t h1 h2 h3 => ?_, fun t authorId hr1 hr2 him hfl ht hlen => ?_,
    fun t authorId hr1 hr2 him ht hlen => ?_⟩
  · rw [controllerAddReply.eq_def, if_pos ⟨h1, h2⟩]
  · subst h2; rw [controllerAddReply.eq_def, if_neg h1]
  · subst h2
    rw [controllerAddReply.eq_def, if_neg h1]
    show (if ("" : String) = "" then _ else _) = _
    rw [if_pos rfl]
  · subst h2
    rw [controllerAddReply.eq_def, if_neg h1]
    show (if t = "" then _ else _) = _
    rw [if_neg h3]
  · have hA : ¬ r.rating < 1 := by omega
    have hB : ¬ 5 < r.rating := by omega
    have hC : ¬ t.length > 1000 := by omega
    simp [ratingAddReply, saveRating, him, hfl, ht, hA, hB, hC]
  · have hA : ¬ r.rating < 1 := by omega
    have hB : ¬ 5 < r.rating := by omega
    simp [ratingAddReply, saveRating, him, ht, hA, hB, hlen]

set_option maxRecDepth 100000 in
/-- Witness for C8's amended theorem: owner 7 replying "Thanks!" at time 3
to a 4-star review, on both the controller path and the model path, plus
the model validator rejecting a 1001-character reply. -/
theorem claim8_reply_behavior_witness :
    controllerAddReply 7 7 Role.store_owner (some "Thanks!") 3
        { user_id := 1, store_id := 1, rating := 4 } =
      Except.ok { user_id := 1, store_id := 1, rating := 4,
                  reply := some { text := "Thanks!", date := 3, author_id := none } } ∧
    ratingAddReply { user_id := 1, store_id := 1, rating := 4 } "Thanks!" 7 3 =
      Except.ok { user_id := 1, store_id := 1, rating := 4,
                  reply := some { text := "Thanks!", date := 3, author_id := some 7 } } ∧
    ratingAddReply { user_id := 1, store_id := 1, rating := 4 }
        (String.mk (List.replicate 1001 'a')) 7 3 =
      Except.error "Reply text cannot exceed 1000 characters" := by
  have h := claim8_reply_behavior 7 7 Role.store_owner (some "Thanks!") 3
    { user_id := 1, store_id := 1, rating := 4 }
  have h2 := claim8_reply_behavior 7 7 Role.store_owner none 3
    { user_id := 1, store_id := 1, rating := 4 }
  exact ⟨h.2.2.2.1 "Thanks!" (by simp) rfl (by decide),
    h2.2.2.2.2.1 "Thanks!" 7 (by decide) (by decide) rfl rfl (by decide) (by decide),
    h2.2.2.2.2.2 (String.mk (List.replicate 1001 'a')) 7 (by decide) (by decide) rfl
      (by decide) (by decide)⟩

/-! ## Claim C6: at most one review per `(user, store)` pair -/

lemma createdCount_update {N : Nat} (res : Fin N → Option SubmitRes) (i : Fin N)
    (v : SubmitRes) (h : res i = none) :
    (∑ j : Fin N, if Function.update res i (some v) j = some SubmitRes.created then 1 else 0) =
      (∑ j : Fin N, if res j = some SubmitRes.created then 1 else 0) +
        (if v = SubmitRes.created then 1 else 0) := by
  have h1 : ∀ j : Fin N,
      (if Function.update res i (some v) j = some SubmitRes.created then (1 : ℕ) else 0) =
        Function.update (fun j => if res j = some SubmitRes.created then (1 : ℕ) else 0) i
          (if v = SubmitRes.created then (1 : ℕ) else 0) j := by
    intro j
    by_cases hj : j = i
    · subst hj
      simp [Function.update_same]
    · simp [Function.update_noteq hj]
  rw [Finset.sum_congr rfl (fun j _ => h1 j),
    Finset.sum_update_of_mem (Finset.mem_univ i), Finset.sdiff_singleton_eq_erase]
  have h2 : ∑ j ∈ Finset.univ.erase i,
        (if res j = some SubmitRes.created then (1 : ℕ) else 0) =
      ∑ j : Fin N, if res j = some SubmitRes.created then (1 : ℕ) else 0 := by
    rw [← Finset.add_sum_erase Finset.univ _ (Finset.mem_univ i)]
    simp [h]
  rw [h2]
  omega

/-- Invariant of the interleaving: the number of clients told "created"
matches the presence of the row, and any remembered positive lookup or
reported duplicate/violation certifies that the row exists (the row is
never deleted during the race). -/
def submitInv {N : Nat} (s : SubmitState N) : Prop :=
  createdCount s = (if s.rowExists then 1 else 0) ∧
  (∀ i, s.found i = some true → s.rowExists = true) ∧
  (∀ i, s.res i = some SubmitRes.duplicate → s.rowExists = true) ∧
  (∀ i, s.res i = some SubmitRes.violation → s.rowExists = true)

lemma submitInv_init (N : Nat) : submitInv (submitInit N) := by
  refine ⟨?_, ?_, ?_, ?_⟩ <;> simp [submitInit, createdCount]

lemma submitInv_step {N : Nat} (s : SubmitState N) (e : SubmitEv N)
    (hs : submitInv s) : submitInv (submitStep s e) := by
  obtain ⟨hc, hf, hd, hv⟩ := hs
  have hc' : (∑ j : Fin N, if s.res j = some SubmitRes.created then (1 : ℕ) else 0) =
      (if s.rowExists then 1 else 0) := hc
  cases e with
  | lookup i =>
    simp only [submitStep]
    by_cases h : (s.found i).isSome = true
    · rw [if_pos h]; exact ⟨hc, hf, hd, hv⟩
    · rw [if_neg h]
      refine ⟨hc, ?_, hd, hv⟩
      intro j hj
      have hj' : Function.update s.found i (some s.rowExists) j = some true := hj
      show s.rowExists = true
      by_cases hji : j = i
      · subst hji
        rw [Function.update_same] at hj'
        exact Option.some.inj hj'
      · rw [Function.update_noteq hji] at hj'
        exact hf j hj' 
  | insert i =>
    simp only [submitStep]
    by_cases h : (s.res i).isSome = true
    · rw [if_pos h]; exact ⟨hc, hf, hd, hv⟩
    · rw [if_neg h]
      have hnone : s.res i = none := by
        cases hres : s.res i with
        | none => rfl
        | some r => rw [hres] at h; simp at h
      cases hfi : s.found i with
      | none => exact ⟨hc, hf, hd, hv⟩
      | some b =>
        cases b with
        | true =>
          refine ⟨?_, hf, ?_, ?_⟩
          · show (∑ j : Fin N,
                if Function.update s.res i (some SubmitRes.duplicate) j = some SubmitRes.created
                then (1 : ℕ) else 0) = _
            rw [createdCount_update s.res i _ hnone, hc']
            simp
          · intro j hj
            have hj' : Function.update s.res i (some SubmitRes.duplicate) j =
                some SubmitRes.duplicate := hj
            show s.rowExists = true
            by_cases hji : j = i
            · exact hf i hfi
            · rw [Function.update_noteq hji] at hj'
              exact hd j hj'
          · intro j hj
            have hj' : Function.update s.res i (some SubmitRes.duplicate) j =
                some SubmitRes.violation := hj
            show s.rowExists = true
            by_cases hji : j = i
            · subst hji; rw [Function.update_same] at hj'; simp at hj'
            · rw [Function.update_noteq hji] at hj'
              exact hv j hj' 
        | false =>
          by_cases hrow : s.rowExists = true
          · rw [if_pos hrow]
            refine ⟨?_, hf, ?_, ?_⟩
            · show (∑ j : Fin N,
                  if Function.update s.res i (some SubmitRes.violation) j = some SubmitRes.created
                  then (1 : ℕ) else 0) = _
              rw [createdCount_update s.res i _ hnone, hc']
              simp
            · intro j hj
              have hj' : Function.update s.res i (some SubmitRes.violation) j =
                  some SubmitRes.duplicate := hj
              show s.rowExists = true
              by_cases hji : j = i
              · subst hji; rw [Function.update_same] at hj'; simp at hj'
              · rw [Function.update_noteq hji] at hj'
                exact hd j hj'
            · intro j _
              exact hrow
          · rw [if_neg hrow]
            have hrow' : s.rowExists = false := by simpa using hrow
            refine ⟨?_, fun j _ => rfl, fun j _ => rfl, fun j _ => rfl⟩
            show (∑ j : Fin N,
                if Function.update s.res i (some SubmitRes.created) j = some SubmitRes.created
                then (1 : ℕ) else 0) = (if true then 1 else 0)
            rw [createdCount_update s.res i _ hnone, hc', hrow']
            simp

lemma submitInv_run {N : Nat} (evs : List (SubmitEv N)) :
    ∀ s, submitInv s → submitInv (evs.foldl submitStep s) := by
  induction evs with
  | nil => intro s hs; exact hs
  | cons e es ih => intro s hs; exact ih _ (submitInv_step s e hs)

lemma runSubmits_exactly_one {N : Nat} (hN : 0 < N) (evs : List (SubmitEv N))
    (hcomplete : ∀ i, ((runSubmits N evs).res i).isSome = true) :
    createdCount (runSubmits N evs) = 1 := by
  unfold runSubmits at hcomplete ⊢
  obtain ⟨hc, hf, hd, hv⟩ := submitInv_run evs (submitInit N) (submitInv_init N)
  have hrow : (evs.foldl submitStep (submitInit N)).rowExists = true := by
    by_contra hrow
    have hrow' : (evs.foldl submitStep (submitInit N)).rowExists = false := by simpa using hrow
    cases hres : (evs.foldl submitStep (submitInit N)).res ⟨0, hN⟩ with
    | none =>
      have := hcomplete ⟨0, hN⟩
      rw [hres] at this
      simp at this
    | some r =>
      cases r with
      | created =>
        have h0 : createdCount (evs.foldl submitStep (submitInit N)) = 0 := by
          rw [hc, hrow']; rfl
        have h1 := (Finset.sum_eq_zero_iff.mp h0) ⟨0, hN⟩ (Finset.mem_univ _)
        rw [hres] at h1
        simp at h1
      | duplicate =>
        rw [hd ⟨0, hN⟩ hres] at hrow'
        exact absurd hrow' (by simp)
      | violation =>
        rw [hv ⟨0, hN⟩ hres] at hrow'
        exact absurd hrow' (by simp)
  rw [hc, hrow]
  rfl

/-- C6: at most one review row ever exists per `(user, store)` pair — the
controller's `addReview` rejects a duplicate pair with the
"already reviewed" message and persists nothing; the storage level rejects
a duplicate insert via the unique index `unique_user_store_rating`
independently of the prior lookup; and in every complete interleaving of
`N ≥ 1` concurrent submits racing on one pair from an empty table, exactly
one client is told its review was created (the constraint closes the
check-then-act race even when every lookup saw no row). -/
theorem claim6_one_review_per_pair :
    (∀ (db : List RatingRow) (userId storeId rating : Nat)
        (title comment : Option String) (images : List String),
        pairExists db userId storeId = true →
        addReview db userId storeId rating title comment images =
          (db, Except.error (.badRequest "You have already reviewed this store"))) ∧
    (∀ (db : List RatingRow) (r : RatingRow), pairExists db r.user_id r.store_id = true →
        insertRating db r = Except.error ReviewErr.constraintViolation) ∧
    (∀ (N : Nat) (evs : List (SubmitEv N)), 0 < N →
        (∀ i, ((runSubmits N evs).res i).isSome = true) →
        createdCount (runSubmits N evs) = 1) := by
  refine ⟨?_, ?_, ?_⟩
  · intro db userId storeId rating title comment images h
    unfold addReview
    rw [if_pos h]
  · intro db r h
    unfold insertRating
    rw [if_pos h]
  · intro N evs hN hcomp
    exact runSubmits_exactly_one hN evs hcomp

/-- Witness for C6: a concrete duplicate rejection, a concrete constraint
violation, and the two-client race `lookup 0, lookup 1, insert 0, insert 1`
in which both lookups see no row and exactly one insert wins. -/
theorem claim6_one_review_per_pair_witness :
    addReview [{ user_id := 1, store_id := 1, rating := 5 }] 1 1 4 none none [] =
      ([{ user_id := 1, store_id := 1, rating := 5 }],
        Except.error (.badRequest "You have already reviewed this store")) ∧
    insertRating [{ user_id := 1, store_id := 1, rating := 5 }]
        { user_id := 1, store_id := 1, rating := 3 } =
      Except.error ReviewErr.constraintViolation ∧
    createdCount (runSubmits 2
        [SubmitEv.lookup 0, SubmitEv.lookup 1, SubmitEv.insert 0, SubmitEv.insert 1]) = 1 :=
  ⟨claim6_one_review_per_pair.1 [{ user_id := 1, store_id := 1, rating := 5 }]
      1 1 4 none none [] (by decide),
   claim6_one_review_per_pair.2.1 [{ user_id := 1, store_id := 1, rating := 5 }]
      { user_id := 1, store_id := 1, rating := 3 } (by decide),
   claim6_one_review_per_pair.2.2 2
      [SubmitEv.lookup 0, SubmitEv.lookup 1, SubmitEv.insert 0, SubmitEv.insert 1]
      (by decide) (by decide)⟩

end StoreRating
